import Mathlib

/-!
# Verification of the supervisord watchdog event loop

Shallow embedding of `src/telemetry-metrics/otel-collector/container/supervisor-watcher.py`,
a supervisord event-listener script.  The script's `main` is:

* `debug_mode = True if 'DEBUG' in os.environ else False`  (line 16)
* loop: `headers, body = listener.wait(sys.stdin, sys.stdout)` (line 20)
* `body = dict([pair.split(":") for pair in body.split(" ")])` (line 21)
* `if debug_mode: continue` (line 23)
* try: if `headers["eventname"]` is `PROCESS_STATE_FATAL` or `PROCESS_STATE_EXITED`
  and (`not args or body["processname"] in args`): sleep 10 seconds, then
  `subprocess.call(["/usr/local/bin/supervisorctl", "shutdown"], ...)` (lines 26-31)
* except: log, `listener.fail(sys.stdout)`, `exit(1)` (lines 33-36)
* else: `listener.ok(sys.stdout)` (line 38)

We model a run of the loop over a finite list of input frames as the trace of
observable events it performs together with the way the process terminates.
-/

namespace SupervisorWatcher

/-- The space character, the separator of body tokens (`body.split(" ")`). -/
def spaceChar : Char := ' '

/-- The colon character, the separator inside one body token (`pair.split(":")`). -/
def colonChar : Char := ':'

/-- Splitting a character list at every occurrence of `sep`, keeping empty
pieces, with `acc` the (reversed) piece being accumulated.  This is Python
`str.split` with an explicit separator: `""` yields `[""]`, consecutive
separators yield empty pieces. -/
def splitSepAux (sep : Char) : List Char → List Char → List (List Char)
  | [], acc => [acc.reverse]
  | c :: cs, acc =>
    if c == sep then acc.reverse :: splitSepAux sep cs []
    else splitSepAux sep cs (c :: acc)

/-- Python `s.split(sep)` for a one-character separator. -/
def splitSep (sep : Char) (s : String) : List String :=
  (splitSepAux sep s.data []).map String.mk

/-- Python `pair.split(":")` fed to `dict(...)`: a token is accepted exactly when
splitting on `:` yields exactly two pieces; Python raises `ValueError` otherwise
(too few or too many pieces), which we model as `none`. -/
def splitPair (p : String) : Option (String × String) :=
  match splitSep colonChar p with
  | [k, v] => some (k, v)
  | _ => none

/-- Line 21: `dict([pair.split(":") for pair in body.split(" ")])`.
The result is kept as an association list (Python dict insertion order with
last-binding-wins lookup); `none` models the uncaught `ValueError`. -/
def parseBody (body : String) : Option (List (String × String)) :=
  (splitSep spaceChar body).mapM splitPair

/-- Python dict lookup `d[k]` over an association list built left to right with
last-binding-wins, returning `none` for a `KeyError`. -/
def dictFind (d : List (String × String)) (k : String) : Option String :=
  (d.reverse.find? (fun kv => kv.1 == k)).map Prod.snd

/-- One event frame as returned by `listener.wait`: the parsed header mapping
and the raw body payload string. -/
structure Frame where
  headers : List (String × String)
  body : String
deriving Repr, DecidableEq

/-- Observable events of a run of `main`, in order of occurrence. -/
inductive Ev
  /-- a frame was read from stdin (`listener.wait` returned) -/
  | readFrame
  /-- `time.sleep(secs)` (line 29) -/
  | sleep (secs : Nat)
  /-- `subprocess.call(["/usr/local/bin/supervisorctl", "shutdown"], ...)`
  spawned the external shutdown command (line 31) -/
  | shutdown
  /-- `listener.ok(sys.stdout)` wrote the OK acknowledgement (line 38) -/
  | replyOK
  /-- `listener.fail(sys.stdout)` wrote the FAIL acknowledgement (line 35) -/
  | replyFAIL
  /-- the input stream was exhausted and `listener.wait` signalled end-of-stream,
  which no handler in `main` catches -/
  | eofCrash
  /-- line 21 raised `ValueError` on a malformed body, outside the try/except -/
  | parseCrash
deriving Repr, DecidableEq

/-- How the process terminated. -/
inductive ExitKind
  /-- an exception propagated out of `main` (Python exits with a non-zero status) -/
  | uncaughtException
  /-- `exit(code)` was called (line 36) -/
  | explicitExit (code : Nat)
deriving Repr, DecidableEq

/-- Line 16: `debug_mode = True if 'DEBUG' in os.environ else False` — key
presence in the environment, the value is never consulted. -/
def debugMode (env : List (String × String)) : Bool :=
  env.any (fun kv => kv.1 == "DEBUG")

/-- Lines 28-31: the actuation block.  `time.sleep(10)` always runs first; then
`subprocess.call` either spawns the shutdown command or raises (spawn failure),
modelled by the `spawnFails` flag.  Returns the events performed and whether an
exception was raised. -/
def actuate (spawnFails : Bool) : List Ev × Bool :=
  if spawnFails then ([Ev.sleep 10], true) else ([Ev.sleep 10, Ev.shutdown], false)

/-- Lines 26-31, the body of the `try` block for one frame: the decision and
actuation logic.  `headers["eventname"]` raises `KeyError` when absent; Python
`not args or body["processname"] in args` short-circuits, so `processname` is
looked up only when `args` is non-empty.  Returns the events performed and
whether an exception was raised (caught by line 33). -/
def tryFrame (args : List String) (spawnFails : Bool)
    (headers bodyDict : List (String × String)) : List Ev × Bool :=
  match dictFind headers "eventname" with
  | none => ([], true)
  | some ev =>
    if ev == "PROCESS_STATE_FATAL" || ev == "PROCESS_STATE_EXITED" then
      if args.isEmpty then actuate spawnFails
      else
        match dictFind bodyDict "processname" with
        | none => ([], true)
        | some pn => if args.contains pn then actuate spawnFails else ([], false)
    else ([], false)

/-- Lines 19-38: the event loop of `main`, run over a finite list of frames that
the input stream will deliver before closing.  The end-of-stream behaviour of
the external `supervisor.childutils.listener.wait` is modelled from the spec's
Event Reader contract (it "signals end-of-stream"): the signal is an exception,
raised at line 20 which is outside the try/except, so it propagates out of
`main`.  Line 21 parses the body of every frame before the debug-mode check and
before the try block, so a malformed body raises an uncaught `ValueError`. -/
def runLoop (debug : Bool) (args : List String) (spawnFails : Bool) :
    List Frame → List Ev × ExitKind
  | [] => ([Ev.eofCrash], ExitKind.uncaughtException)
  | f :: rest =>
    match parseBody f.body with
    | none => ([Ev.readFrame, Ev.parseCrash], ExitKind.uncaughtException)
    | some bodyDict =>
      if debug then
        let r := runLoop debug args spawnFails rest
        (Ev.readFrame :: r.1, r.2)
      else
        let t := tryFrame args spawnFails f.headers bodyDict
        if t.2 then
          (Ev.readFrame :: t.1 ++ [Ev.replyFAIL], ExitKind.explicitExit 1)
        else
          let r := runLoop debug args spawnFails rest
          (Ev.readFrame :: t.1 ++ Ev.replyOK :: r.1, r.2)

/-- `main(sys.argv[1:])`: the debug flag is computed from the environment once,
before the loop starts, and the loop is then run with that fixed flag. -/
def runMain (env : List (String × String)) (args : List String)
    (spawnFails : Bool) (frames : List Frame) : List Ev × ExitKind :=
  runLoop (debugMode env) args spawnFails frames

/-- The Watch Decision Engine as the spec words it (§4.3): qualifying iff the
event kind is `PROCESS_STATE_FATAL` or `PROCESS_STATE_EXITED` and the watch set
is empty or contains the process name. -/
def specQualifying (watchSet : List String) (eventKind processname : String) : Bool :=
  (eventKind == "PROCESS_STATE_FATAL" || eventKind == "PROCESS_STATE_EXITED") &&
  (watchSet.isEmpty || watchSet.contains processname)

/-- The frame's body string parses at line 21. -/
def bodyParses (f : Frame) : Bool := (parseBody f.body).isSome

/-- Processing the frame (with successful spawns) raises no exception: the body
parses and the try block completes normally. -/
def frameOk (args : List String) (f : Frame) : Bool :=
  match parseBody f.body with
  | none => false
  | some bd => !(tryFrame args false f.headers bd).2

/-- Number of frames in the list on which the decision logic actuates the
shutdown command (with successful spawns). -/
def qualCount (args : List String) (frames : List Frame) : Nat :=
  (frames.filter fun f =>
    match parseBody f.body with
    | none => false
    | some bd => (tryFrame args false f.headers bd).1.contains Ev.shutdown).length

/-- Synchronous acknowledgement discipline over a trace: at most one frame in
flight; each `readFrame` must be acknowledged by exactly one reply (OK or FAIL)
before the next `readFrame`, and every read frame is acknowledged by the end.
`pending` records whether a read frame is awaiting its reply. -/
def ackRun (pending : Bool) : List Ev → Bool
  | [] => !pending
  | e :: rest =>
    match e with
    | Ev.readFrame => !pending && ackRun true rest
    | Ev.replyOK => pending && ackRun false rest
    | Ev.replyFAIL => pending && ackRun false rest
    | _ => ackRun pending rest

/-- Every `shutdown` event in the trace is immediately preceded by a
`sleep 10` event; `prev` is the preceding event, if any. -/
def graceAux (prev : Option Ev) : List Ev → Bool
  | [] => true
  | e :: rest =>
    (match e with
     | Ev.shutdown => prev == some (Ev.sleep 10)
     | _ => true) && graceAux (some e) rest

/-- A process-state event for a watched process, used as a concrete qualifying
input in several witnesses. -/
def qFrame : Frame := ⟨[("eventname", "PROCESS_STATE_EXITED")], "processname:game"⟩

/-- The try block of one frame either raises before acting, completes without
acting, or runs the actuation block. -/
theorem tryFrame_shape (args : List String) (sf : Bool) (h bd : List (String × String)) :
    tryFrame args sf h bd = ([], true) ∨ tryFrame args sf h bd = ([], false) ∨
    tryFrame args sf h bd = actuate sf := by
  unfold tryFrame
  rcases dictFind h "eventname" with _ | ev
  · exact Or.inl rfl
  · dsimp only
    split
    · split
      · exact Or.inr (Or.inr rfl)
      · rcases dictFind bd "processname" with _ | pn
        · exact Or.inl rfl
        · dsimp only
          split
          · exact Or.inr (Or.inr rfl)
          · exact Or.inr (Or.inl rfl)
    · exact Or.inr (Or.inl rfl)

/-- C2: the watch decision is a pure function of (event kind, process name,
watch set): the per-frame try block runs the actuation (whose first step is the
grace sleep) if and only if the eventname is `PROCESS_STATE_FATAL` or
`PROCESS_STATE_EXITED` and the watch set is empty or contains the processname;
every other combination does not actuate, and no exception is raised except by
a failing spawn on a qualifying event. -/
theorem watch_decision_iff (args : List String) (sf : Bool)
    (headers bodyDict : List (String × String)) (ev pn : String)
    (h1 : dictFind headers "eventname" = some ev)
    (h2 : dictFind bodyDict "processname" = some pn) :
    (Ev.sleep 10 ∈ (tryFrame args sf headers bodyDict).1
      ↔ specQualifying args ev pn = true)
    ∧ (tryFrame args sf headers bodyDict).2 = (specQualifying args ev pn && sf) := by
  simp only [tryFrame, h1, h2, specQualifying]
  cases hk : (ev == "PROCESS_STATE_FATAL" || ev == "PROCESS_STATE_EXITED") <;>
    cases ha : args.isEmpty <;> cases hc : args.contains pn <;> cases sf <;>
      simp_all [actuate]

/-- C2 witness: a `PROCESS_STATE_EXITED` event for process `game` with watch
set `{game}` qualifies. -/
theorem watch_decision_iff_witness :
    (Ev.sleep 10 ∈ (tryFrame ["game"] false
        [("eventname", "PROCESS_STATE_EXITED")] [("processname", "game")]).1
      ↔ specQualifying ["game"] "PROCESS_STATE_EXITED" "game" = true)
    ∧ (tryFrame ["game"] false
        [("eventname", "PROCESS_STATE_EXITED")] [("processname", "game")]).2
      = (specQualifying ["game"] "PROCESS_STATE_EXITED" "game" && false) :=
  watch_decision_iff ["game"] false
    [("eventname", "PROCESS_STATE_EXITED")] [("processname", "game")]
    "PROCESS_STATE_EXITED" "game" (by decide) (by decide)

/-- C8: in every run of the event loop, whatever the mode, watch set, spawn
behaviour and input frames, each invocation of the shutdown command is
immediately preceded by the fixed 10-second grace sleep. -/
theorem grace_before_shutdown (debug : Bool) (args : List String) (sf : Bool)
    (frames : List Frame) :
    graceAux none (runLoop debug args sf frames).1 = true := by
  suffices h : ∀ (prev : Option Ev),
      graceAux prev (runLoop debug args sf frames).1 = true from h none
  induction frames with
  | nil => intro prev; simp [runLoop, graceAux]
  | cons f rest ih =>
    intro prev
    rcases hp : parseBody f.body with _ | bd
    · simp [runLoop, hp, graceAux]
    · cases debug with
      | true => simp [runLoop, hp, graceAux, ih]
      | false =>
        rcases tryFrame_shape args sf f.headers bd with ht | ht | ht <;>
          cases sf <;>
            simp_all [runLoop, hp, actuate, graceAux]

/-- C1 counterexample: with an empty watch set, no debug mode and successful
spawns, a sequence of two qualifying `PROCESS_STATE_EXITED` events makes the
loop invoke the external shutdown command twice, not exactly once: the code
keeps no ShutdownState flag. -/
theorem shutdown_once_counterexample :
    (runMain [] [] false [qFrame, qFrame]).1.count Ev.shutdown = 2 := by decide

/-- C1 amended: the shutdown command is invoked once per qualifying event — for
a fault-free run over any input frames, the number of shutdown invocations
equals the number of frames on which the decision logic actuates, with no
once-only guard. -/
theorem shutdown_per_qualifying_event (args : List String) (frames : List Frame)
    (h : frames.all (frameOk args) = true) :
    (runLoop false args false frames).1.count Ev.shutdown = qualCount args frames := by
  induction frames with
  | nil => simp [runLoop, qualCount]
  | cons f rest ih =>
    simp only [List.all_cons, Bool.and_eq_true] at h
    obtain ⟨hf, hrest⟩ := h
    unfold frameOk at hf
    rcases hp : parseBody f.body with _ | bd
    · rw [hp] at hf; simp at hf
    · rw [hp] at hf
      simp only [Bool.not_eq_true'] at hf
      rcases tryFrame_shape args false f.headers bd with ht | ht | ht
      · rw [ht] at hf; simp at hf
      · simp [runLoop, hp, ht, qualCount, List.filter_cons, List.count_cons, ih hrest]
      · simp only [actuate, if_neg Bool.false_ne_true] at ht
        simp [runLoop, hp, ht, qualCount, List.filter_cons, List.count_cons, ih hrest]

/-- C1 witness: two qualifying frames are processed fault-free and produce two
shutdown invocations, the count of actuating frames. -/
theorem shutdown_per_qualifying_event_witness :
    ([qFrame, qFrame].all (frameOk []) = true)
    ∧ (runLoop false [] false [qFrame, qFrame]).1.count Ev.shutdown
        = qualCount [] [qFrame, qFrame] :=
  ⟨by decide, shutdown_per_qualifying_event [] [qFrame, qFrame] (by decide)⟩

/-- C3 counterexample: in debug mode a well-formed frame is read but no
acknowledgement at all is written back — the claimed one-reply-per-frame
invariant fails in debug/dry-run mode. -/
theorem ack_per_frame_counterexample :
    (runMain [("DEBUG", "")] [] false [qFrame]).1.count Ev.readFrame = 1
    ∧ (runMain [("DEBUG", "")] [] false [qFrame]).1.count Ev.replyOK = 0
    ∧ (runMain [("DEBUG", "")] [] false [qFrame]).1.count Ev.replyFAIL = 0 := by
  decide

/-- C3 amended: in non-debug mode, over frames whose bodies parse, each frame
read is acknowledged by exactly one reply (OK or FAIL) before the next frame is
read and all frames are acknowledged; and when no per-frame fault occurs, no
FAIL is ever written, so every reply is OK. -/
theorem ack_discipline (args : List String) (sf : Bool) (frames : List Frame)
    (h : frames.all bodyParses = true) :
    ackRun false (runLoop false args sf frames).1 = true
    ∧ (frames.all (frameOk args) = true →
        (runLoop false args false frames).1.count Ev.replyFAIL = 0) := by
  constructor
  · induction frames with
    | nil => simp [runLoop, ackRun]
    | cons f rest ih =>
      simp only [List.all_cons, Bool.and_eq_true] at h
      obtain ⟨hf, hrest⟩ := h
      unfold bodyParses at hf
      rcases hp : parseBody f.body with _ | bd
      · rw [hp] at hf; simp at hf
      · rcases tryFrame_shape args sf f.headers bd with ht | ht | ht <;>
          cases sf <;>
            simp_all [runLoop, hp, actuate, ackRun]
  · intro h2
    induction frames with
    | nil => simp [runLoop]
    | cons f rest ih =>
      simp only [List.all_cons, Bool.and_eq_true] at h h2
      obtain ⟨hf, hrest⟩ := h2
      unfold frameOk at hf
      rcases hp : parseBody f.body with _ | bd
      · rw [hp] at hf; simp at hf
      · rw [hp] at hf
        simp only [Bool.not_eq_true'] at hf
        rcases tryFrame_shape args false f.headers bd with ht | ht | ht
        · rw [ht] at hf; simp at hf
        · simp [runLoop, hp, ht, List.count_cons, ih h.2 hrest]
        · simp only [actuate, if_neg Bool.false_ne_true] at ht
          simp [runLoop, hp, ht, List.count_cons, ih h.2 hrest]

/-- C3 witness: one qualifying frame is read, acknowledged exactly once, and
the reply is OK (no FAIL is written). -/
theorem ack_discipline_witness :
    ([qFrame].all bodyParses = true)
    ∧ (ackRun false (runLoop false [] false [qFrame]).1 = true
        ∧ ([qFrame].all (frameOk []) = true →
            (runLoop false [] false [qFrame]).1.count Ev.replyFAIL = 0)) :=
  ⟨by decide, ack_discipline [] false [qFrame] (by decide)⟩

/-- A frame whose body has a token without a `:` separator. -/
def malformedFrame : Frame := ⟨[("eventname", "PROCESS_STATE_EXITED")], "badtoken"⟩

/-- C4: a malformed body (`badtoken`, no `:` separator) is parsed at line 21,
before the try/except, so the `ValueError` is uncaught: the process terminates
with a non-zero status via an unhandled exception, but no FAIL reply is written
for the frame (the shutdown command is also not invoked) — contradicting the
documented MalformedFrame handling. -/
theorem malformed_body_crashes_without_fail_reply :
    runMain [] [] false [malformedFrame]
      = ([Ev.readFrame, Ev.parseCrash], ExitKind.uncaughtException)
    ∧ (runMain [] [] false [malformedFrame]).1.count Ev.replyFAIL = 0
    ∧ (runMain [] [] false [malformedFrame]).1.count Ev.shutdown = 0 := by decide

/-- C5 counterexample: on a qualifying event whose shutdown spawn fails, the
exception is caught by the per-frame handler, a FAIL reply is written and the
process exits with status 1 — not "no FAIL reply and a normal zero exit". -/
theorem actuator_failure_counterexample :
    runMain [] [] true [qFrame]
      = ([Ev.readFrame, Ev.sleep 10, Ev.replyFAIL], ExitKind.explicitExit 1)
    ∧ (runMain [] [] true [qFrame]).1.count Ev.replyFAIL = 1 := by decide

/-- C5 amended: when spawning the external shutdown command fails on a
qualifying event, the failure is escalated like any per-frame fault: after the
grace sleep, a FAIL reply is written for that frame and the process exits with
status 1. -/
theorem spawn_failure_escalates (args : List String) (f : Frame) (rest : List Frame)
    (bd : List (String × String)) (ev pn : String)
    (hb : parseBody f.body = some bd)
    (h1 : dictFind f.headers "eventname" = some ev)
    (h2 : dictFind bd "processname" = some pn)
    (hq : specQualifying args ev pn = true) :
    runLoop false args true (f :: rest)
      = ([Ev.readFrame, Ev.sleep 10, Ev.replyFAIL], ExitKind.explicitExit 1) := by
  have ht : tryFrame args true f.headers bd = ([Ev.sleep 10], true) := by
    unfold specQualifying at hq
    simp only [Bool.and_eq_true, Bool.or_eq_true] at hq
    obtain ⟨hk, hs⟩ := hq
    have hcond : (ev == "PROCESS_STATE_FATAL" || ev == "PROCESS_STATE_EXITED") = true := by
      rcases hk with hk | hk <;> simp [hk]
    cases he : args.isEmpty
    · have hc : args.contains pn = true := by
        rcases hs with hs | hs
        · rw [he] at hs; exact absurd hs (by simp)
        · exact hs
      have hc2 : pn ∈ args := by simpa using hc
      simp [tryFrame, h1, hcond, he, h2, hc2, actuate]
    · simp [tryFrame, h1, hcond, he, actuate]
  simp [runLoop, hb, ht]

/-- C5 witness: a qualifying `PROCESS_STATE_EXITED` frame with a failing spawn
yields the FAIL reply and exit status 1. -/
theorem spawn_failure_escalates_witness :
    runLoop false [] true [qFrame]
      = ([Ev.readFrame, Ev.sleep 10, Ev.replyFAIL], ExitKind.explicitExit 1) :=
  spawn_failure_escalates [] qFrame [] [("processname", "game")]
    "PROCESS_STATE_EXITED" "game" (by decide) (by decide) (by decide) (by decide)

/-- C6 counterexample: a frame whose eventname is `TICK_5` — not a
process-state event — still has its body pushed through the key:value parser:
with the non-conforming body `badtoken` the process crashes at the parse,
before the event kind is ever inspected. -/
theorem body_parse_event_kind_counterexample :
    runMain [] [] false [⟨[("eventname", "TICK_5")], "badtoken"⟩]
      = ([Ev.readFrame, Ev.parseCrash], ExitKind.uncaughtException) := by decide

/-- C6 amended: body parsing is attempted for every frame read, regardless of
the event kind in its headers: after any fault-free prefix, a frame with a
non-conforming body crashes the run whatever its headers say. -/
theorem body_parsed_regardless_of_kind (args : List String) (pre : List Frame)
    (hdrs : List (String × String)) (b : String) (rest : List Frame)
    (hpre : pre.all (frameOk args) = true)
    (hb : parseBody b = none) :
    (runLoop false args false (pre ++ Frame.mk hdrs b :: rest)).2
      = ExitKind.uncaughtException
    ∧ Ev.parseCrash ∈ (runLoop false args false (pre ++ Frame.mk hdrs b :: rest)).1 := by
  induction pre with
  | nil => simp [runLoop, hb]
  | cons p pre ih =>
    simp only [List.all_cons, Bool.and_eq_true] at hpre
    obtain ⟨hp, hrest⟩ := hpre
    unfold frameOk at hp
    rcases hpb : parseBody p.body with _ | bd
    · rw [hpb] at hp; simp at hp
    · rw [hpb] at hp
      simp only [Bool.not_eq_true'] at hp
      rcases tryFrame_shape args false p.headers bd with ht | ht | ht
      · rw [ht] at hp; simp at hp
      · simp [runLoop, hpb, ht, ih hrest]
      · simp only [actuate, if_neg Bool.false_ne_true] at ht
        simp [runLoop, hpb, ht, ih hrest]

/-- C6 witness: after one fault-free qualifying frame, a `TICK_5` frame with
body `badtoken` still crashes at the body parse. -/
theorem body_parsed_regardless_of_kind_witness :
    (runLoop false [] false
        ([qFrame] ++ Frame.mk [("eventname", "TICK_5")] "badtoken" :: [])).2
      = ExitKind.uncaughtException
    ∧ Ev.parseCrash ∈ (runLoop false [] false
        ([qFrame] ++ Frame.mk [("eventname", "TICK_5")] "badtoken" :: [])).1 :=
  body_parsed_regardless_of_kind [] [qFrame] [("eventname", "TICK_5")] "badtoken" []
    (by decide) (by decide)

/-- C7 counterexample: an immediately exhausted input stream makes the watcher
terminate with an unhandled end-of-stream exception — a non-zero exit status,
not a clean zero exit (no FAIL reply is written either). -/
theorem stream_closed_counterexample :
    runMain [] [] false [] = ([Ev.eofCrash], ExitKind.uncaughtException)
    ∧ (runMain [] [] false []).1.count Ev.replyFAIL = 0 := by decide

/-- C7 amended: whenever the input stream is exhausted after any fault-free
frames, the watcher terminates without writing a FAIL reply, but through an
unhandled end-of-stream exception (non-zero exit status), not a clean zero
exit. -/
theorem stream_exhaustion_uncaught (args : List String) (frames : List Frame)
    (h : frames.all (frameOk args) = true) :
    (runLoop false args false frames).2 = ExitKind.uncaughtException
    ∧ (∃ tr, (runLoop false args false frames).1 = tr ++ [Ev.eofCrash])
    ∧ (runLoop false args false frames).1.count Ev.replyFAIL = 0 := by
  induction frames with
  | nil => exact ⟨rfl, ⟨[], rfl⟩, rfl⟩
  | cons f rest ih =>
    simp only [List.all_cons, Bool.and_eq_true] at h
    obtain ⟨hf, hrest⟩ := h
    obtain ⟨ih1, ⟨tr, htr⟩, ih3⟩ := ih hrest
    unfold frameOk at hf
    rcases hp : parseBody f.body with _ | bd
    · rw [hp] at hf; simp at hf
    · rw [hp] at hf
      simp only [Bool.not_eq_true'] at hf
      rcases tryFrame_shape args false f.headers bd with ht | ht | ht
      · rw [ht] at hf; simp at hf
      · refine ⟨by simp [runLoop, hp, ht, ih1], ⟨Ev.readFrame :: Ev.replyOK :: tr, ?_⟩,
          by simp [runLoop, hp, ht, List.count_cons, ih3]⟩
        simp [runLoop, hp, ht, htr]
      · simp only [actuate, if_neg Bool.false_ne_true] at ht
        refine ⟨by simp [runLoop, hp, ht, ih1],
          ⟨Ev.readFrame :: Ev.sleep 10 :: Ev.shutdown :: Ev.replyOK :: tr, ?_⟩,
          by simp [runLoop, hp, ht, List.count_cons, ih3]⟩
        simp [runLoop, hp, ht, htr]

/-- C7 witness: after one fault-free qualifying frame the stream closes and the
run ends in the unhandled end-of-stream exception with no FAIL written. -/
theorem stream_exhaustion_uncaught_witness :
    (runLoop false [] false [qFrame]).2 = ExitKind.uncaughtException
    ∧ (∃ tr, (runLoop false [] false [qFrame]).1 = tr ++ [Ev.eofCrash])
    ∧ (runLoop false [] false [qFrame]).1.count Ev.replyFAIL = 0 :=
  stream_exhaustion_uncaught [] [qFrame] (by decide)

/-- C9: debug mode is a pure key-presence test on the environment — any value
of `DEBUG` (including `""` and `"0"`) enables it and the value never matters —
and `main` samples it exactly once before the loop: two environments with the
same sampled flag produce identical runs. -/
theorem debug_flag_presence_only :
    (∀ (v : String) (env : List (String × String)),
        debugMode (("DEBUG", v) :: env) = true)
    ∧ (∀ (k v w : String) (env : List (String × String)),
        debugMode ((k, v) :: env) = debugMode ((k, w) :: env))
    ∧ (∀ (env env2 : List (String × String)) (args : List String) (sf : Bool)
        (frames : List Frame), debugMode env = debugMode env2 →
          runMain env args sf frames = runMain env2 args sf frames) := by
  refine ⟨?_, ?_, ?_⟩
  · intro v env; simp [debugMode]
  · intro k v w env; simp [debugMode]
  · intro env env2 args sf frames h; simp [runMain, h]

/-- C9 witness: `DEBUG=0` and `DEBUG=` both enable debug mode, and a run under
`DEBUG=0` equals the run under `DEBUG=1`. -/
theorem debug_flag_presence_only_witness :
    debugMode [("DEBUG", "0")] = true
    ∧ debugMode [("DEBUG", "")] = true
    ∧ runMain [("DEBUG", "0")] [] false [qFrame]
        = runMain [("DEBUG", "1")] [] false [qFrame] :=
  ⟨debug_flag_presence_only.1 "0" [], debug_flag_presence_only.1 "" [],
    debug_flag_presence_only.2.2 [("DEBUG", "0")] [("DEBUG", "1")] [] false [qFrame]
      (by decide)⟩

/-- C10: in debug mode every frame's body is still parsed before the frame is
skipped: after any frames with well-formed bodies (each producing only a read,
no reply and no actuation), a frame with a malformed body crashes the process
through the unhandled parse exception, with no OK or FAIL reply and no
shutdown ever written. -/
theorem debug_mode_still_parses_body (args : List String) (sf : Bool)
    (pre : List Frame) (hdrs : List (String × String)) (b : String)
    (rest : List Frame)
    (hpre : pre.all bodyParses = true)
    (hb : parseBody b = none) :
    runLoop true args sf (pre ++ Frame.mk hdrs b :: rest)
      = (List.replicate pre.length Ev.readFrame ++ [Ev.readFrame, Ev.parseCrash],
         ExitKind.uncaughtException)
    ∧ (runLoop true args sf (pre ++ Frame.mk hdrs b :: rest)).1.count Ev.replyOK = 0
    ∧ (runLoop true args sf (pre ++ Frame.mk hdrs b :: rest)).1.count Ev.replyFAIL = 0
    ∧ (runLoop true args sf (pre ++ Frame.mk hdrs b :: rest)).1.count Ev.shutdown = 0 := by
  have heq : runLoop true args sf (pre ++ Frame.mk hdrs b :: rest)
      = (List.replicate pre.length Ev.readFrame ++ [Ev.readFrame, Ev.parseCrash],
         ExitKind.uncaughtException) := by
    induction pre with
    | nil => simp [runLoop, hb]
    | cons p pre ih =>
      simp only [List.all_cons, Bool.and_eq_true] at hpre
      obtain ⟨hp, hrest⟩ := hpre
      unfold bodyParses at hp
      rcases hpb : parseBody p.body with _ | bd
      · rw [hpb] at hp; simp at hp
      · simp [runLoop, hpb, ih hrest, List.replicate_succ]
  refine ⟨heq, ?_, ?_, ?_⟩ <;> rw [heq] <;>
    simp [List.count_append, List.count_replicate, List.count_cons]

/-- C10 witness: in debug mode, one well-formed frame then a malformed-body
frame yield only two reads and the parse crash, with no replies and no
shutdown. -/
theorem debug_mode_still_parses_body_witness :
    runLoop true [] false ([qFrame] ++ Frame.mk [("eventname", "TICK_60")] "when" :: [])
      = (List.replicate (List.length [qFrame]) Ev.readFrame
          ++ [Ev.readFrame, Ev.parseCrash],
         ExitKind.uncaughtException)
    ∧ (runLoop true [] false
        ([qFrame] ++ Frame.mk [("eventname", "TICK_60")] "when" :: [])).1.count Ev.replyOK = 0
    ∧ (runLoop true [] false
        ([qFrame] ++ Frame.mk [("eventname", "TICK_60")] "when" :: [])).1.count Ev.replyFAIL = 0
    ∧ (runLoop true [] false
        ([qFrame] ++ Frame.mk [("eventname", "TICK_60")] "when" :: [])).1.count Ev.shutdown = 0 :=
  debug_mode_still_parses_body [] false [qFrame] [("eventname", "TICK_60")] "when" []
    (by decide) (by decide)

end SupervisorWatcher
